import Mathlib

/-!
Shallow embedding of the menstrual-cycle analysis core of
`health_tracker/app_folder/app.py`: `calculate_cycle_analysis`,
`predict_next_period`, `calculate_period_calendar`, `get_period_delay`.

Dates are modelled as day counts in the proleptic Gregorian calendar
(day 0 = 0000-03-01), using the standard civil-calendar conversion
algorithms; Python's `datetime` year range limits (1..9999 with an
`OverflowError` outside) are not modelled — day arithmetic is unbounded.
`datetime.now()` is modelled as an explicit parameter (a day count plus
the number of seconds elapsed since that day's midnight).
-/

/-- One record of the `period_history` list built by the dashboard routes:
a dict `{'date': ..., 'start': ...}` with both fields strings. -/
structure PeriodRecord where
  date : String
  start : String
deriving DecidableEq, Repr

/-- The dict returned by `calculate_cycle_analysis`. -/
structure CycleAnalysis where
  cycle_length : Nat
  period_duration : Nat
  cycle_regularity : String
  next_ovulation : String
  fertile_window : String
  last_period_start : String
deriving DecidableEq, Repr

/-- One entry of the list returned by `calculate_period_calendar`. -/
structure CalendarEntry where
  date : String
  month : Nat
  year : Nat
  cycle_number : Nat
deriving DecidableEq, Repr

/-- Gregorian leap-year rule (as implemented by Python's `datetime`). -/
def isLeapYear (y : Nat) : Bool :=
  y % 4 == 0 && (y % 100 != 0 || y % 400 == 0)

/-- Number of days in month `m` of year `y`. -/
def daysInMonth (y m : Nat) : Nat :=
  if m = 2 then (if isLeapYear y then 29 else 28)
  else if m = 4 ∨ m = 6 ∨ m = 9 ∨ m = 11 then 30
  else 31

/-- Day count of the civil date `y-m-d` with day 0 = 0000-03-01
(civil-from-days / days-from-civil pair of the standard calendar
conversion algorithm, specialised to non-negative years). -/
def daysFromCivil (y m d : Nat) : Nat :=
  let yAdj := if m ≤ 2 then y - 1 else y
  let era := yAdj / 400
  let yoe := yAdj - era * 400
  let doy := (153 * (if 2 < m then m - 3 else m + 9) + 2) / 5 + d - 1
  let doe := yoe * 365 + yoe / 4 - yoe / 100 + doy
  era * 146097 + doe

/-- Inverse of `daysFromCivil`: the civil date `(y, m, d)` of a day count. -/
def civilFromDays (z : Nat) : Nat × Nat × Nat :=
  let era := z / 146097
  let doe := z % 146097
  let yoe := (doe - doe / 1460 + doe / 36524 - doe / 146096) / 365
  let y := yoe + era * 400
  let doy := doe - (365 * yoe + yoe / 4 - yoe / 100)
  let mp := (5 * doy + 2) / 153
  let d := doy - (153 * mp + 2) / 5 + 1
  let m := if mp < 10 then mp + 3 else mp - 9
  (if m ≤ 2 then y + 1 else y, m, d)

/-- Year component of a day count. -/
def dateYear (z : Nat) : Nat := (civilFromDays z).1

/-- Month component of a day count. -/
def dateMonth (z : Nat) : Nat := (civilFromDays z).2.1

/-- Day-of-month component of a day count. -/
def dateDay (z : Nat) : Nat := (civilFromDays z).2.2

/-- Zero-pad a number to two digits. -/
def pad2 (n : Nat) : String :=
  if n < 10 then "0" ++ toString n else toString n

/-- Zero-pad a number to four digits. -/
def pad4 (n : Nat) : String :=
  if n < 10 then "000" ++ toString n
  else if n < 100 then "00" ++ toString n
  else if n < 1000 then "0" ++ toString n
  else toString n

/-- `strftime('%Y-%m-%d')` on a day count. -/
def formatDate (z : Nat) : String :=
  pad4 (dateYear z) ++ "-" ++ pad2 (dateMonth z) ++ "-" ++ pad2 (dateDay z)

/-- Split a character list at every `'-'` (the separators of the
`'%Y-%m-%d'` format string). -/
def splitDashes : List Char → List (List Char)
  | [] => [[]]
  | c :: cs =>
    if c = '-' then [] :: splitDashes cs
    else
      match splitDashes cs with
      | [] => [[c]]
      | p :: ps => (c :: p) :: ps

/-- ASCII decimal digit test. -/
def isAsciiDigit (c : Char) : Bool := '0' ≤ c && c ≤ '9'

/-- Numeric value of a list of decimal digits. -/
def digitsToNat (cs : List Char) : Nat :=
  cs.foldl (fun a c => a * 10 + (c.toNat - 48)) 0

/-- `datetime.strptime(s, '%Y-%m-%d')`, as an `Option` over day counts:
`none` models the raised `ValueError`.  CPython's `_strptime` matches
`%Y` against exactly four digits and `%m`/`%d` against one or two digits
with the whole string consumed, then `datetime` validates ranges
(year ≥ 1, month 1..12, day within the month). -/
def strptimeDate (s : String) : Option Nat :=
  match splitDashes s.data with
  | [ys, ms, ds] =>
    if (ys.length = 4 ∧ ys.all isAsciiDigit) ∧
       (1 ≤ ms.length ∧ ms.length ≤ 2 ∧ ms.all isAsciiDigit) ∧
       (1 ≤ ds.length ∧ ds.length ≤ 2 ∧ ds.all isAsciiDigit) then
      let y := digitsToNat ys
      let m := digitsToNat ms
      let d := digitsToNat ds
      if 1 ≤ y ∧ 1 ≤ m ∧ m ≤ 12 ∧ 1 ≤ d ∧ d ≤ daysInMonth y m then
        some (daysFromCivil y m d)
      else none
    else none
  | _ => none

/-- The `period_dates` list that `calculate_cycle_analysis` and
`calculate_period_calendar` both build: parse each record's `start`,
silently skipping unparseable ones. -/
def validDates (period_history : List PeriodRecord) : List Nat :=
  period_history.filterMap (fun p => strptimeDate p.start)

/-- Python's `max` over a (nonempty) list of naturals. -/
def listMax (l : List Nat) : Nat := l.foldl Nat.max 0

/-- Python's `min` over a (nonempty) list of naturals. -/
def listMin : List Nat → Nat
  | [] => 0
  | x :: xs => xs.foldl Nat.min x

/-- The insufficient-data dict returned (twice, literally) by
`calculate_cycle_analysis`; `last_period_start` is
`period_history[0]['start'] if period_history else 'No data'`. -/
def insufficientAnalysis (period_history : List PeriodRecord) : CycleAnalysis :=
  { cycle_length := 28
    period_duration := 5
    cycle_regularity := "Insufficient data"
    next_ovulation := "Need more data"
    fertile_window := "Need more data"
    last_period_start :=
      match period_history with
      | [] => "No data"
      | p :: _ => p.start }

/-- The statistics branch of `calculate_cycle_analysis` (reached with at
least two parsed dates): sort, take consecutive gaps, floor-average,
classify the spread, and build the prediction fields. -/
def cycleStats (period_dates : List Nat) : CycleAnalysis :=
  let sortedDates := List.insertionSort (· ≤ ·) period_dates
  let differences := List.zipWith (fun a b => b - a) sortedDates sortedDates.tail
  let avg_cycle := differences.sum / differences.length
  let cycle_variance := listMax differences - listMin differences
  let regularity :=
    if cycle_variance ≤ 3 then "Very Regular"
    else if cycle_variance ≤ 7 then "Regular"
    else if cycle_variance ≤ 10 then "Slightly Irregular"
    else "Irregular"
  let last_period := sortedDates.getLastD 0
  let next_period := last_period + avg_cycle
  let ovulation_date := next_period - 14
  let fertile_start := ovulation_date - 3
  let fertile_end := ovulation_date + 1
  { cycle_length := avg_cycle
    period_duration := 5
    cycle_regularity := regularity
    next_ovulation := formatDate ovulation_date
    fertile_window := formatDate fertile_start ++ " to " ++ formatDate fertile_end
    last_period_start := formatDate last_period }

/-- `calculate_cycle_analysis` from `app.py`. -/
def calculate_cycle_analysis (period_history : List PeriodRecord) : CycleAnalysis :=
  if period_history.length < 2 then insufficientAnalysis period_history
  else
    let period_dates := validDates period_history
    if period_dates.length < 2 then insufficientAnalysis period_history
    else cycleStats period_dates

/-- `predict_next_period` from `app.py`.  The last record's `start` is
parsed without a `try`/`except`, so an unparseable value raises
`ValueError`; the raise is modelled as `none`. -/
def predict_next_period (period_history : List PeriodRecord) (cycle_length : Nat) :
    Option String :=
  if period_history.length < 1 then some "Need more data for prediction"
  else
    match strptimeDate (period_history.getLastD ⟨"", ""⟩).start with
    | none => none
    | some last_period => some (formatDate (last_period + cycle_length))

/-- `calculate_period_calendar` from `app.py`. -/
def calculate_period_calendar (period_history : List PeriodRecord)
    (cycle_length period_duration months : Nat) : List CalendarEntry :=
  if period_history.length < 1 then []
  else
    let period_dates := validDates period_history
    if period_dates.length < 1 then []
    else
      let last_period := period_dates.getLastD 0
      (List.range months).flatMap (fun i =>
        let next_period := last_period + cycle_length * (i + 1)
        (List.range period_duration).map (fun day =>
          let period_date := next_period + day
          { date := formatDate period_date
            month := dateMonth period_date
            year := dateYear period_date
            cycle_number := i + 1 }))

/-- `get_period_delay` from `app.py`.  `datetime.now()` is modelled by
`todayDay` (day count) and `todaySec` (seconds since that midnight);
`today > predicted_date` compares full datetimes, and
`(today - predicted_date).days` floors to `todayDay - predicted_date`
whenever `today` is past the predicted date's midnight. -/
def get_period_delay (next_period_prediction : String) (todayDay todaySec : Nat) :
    Option Nat :=
  if next_period_prediction = "" ∨ next_period_prediction = "Need more data for prediction"
  then none
  else
    match strptimeDate next_period_prediction with
    | none => none
    | some predicted_date =>
      if predicted_date < todayDay ∨ (predicted_date = todayDay ∧ 0 < todaySec) then
        some (todayDay - predicted_date)
      else none

/-- The sorted valid start dates of a history (`period_dates` after
`period_dates.sort()`). -/
def sortedValidDates (period_history : List PeriodRecord) : List Nat :=
  List.insertionSort (· ≤ ·) (validDates period_history)

/-- The consecutive day-gaps of the sorted valid start dates
(the `differences` list of `calculate_cycle_analysis`). -/
def cycleGaps (period_history : List PeriodRecord) : List Nat :=
  List.zipWith (fun a b => b - a) (sortedValidDates period_history)
    (sortedValidDates period_history).tail

/-- History with starts `2024-01-01, 2024-01-21, 2024-02-25` (gaps 20 and 35). -/
def exGaps2035 : List PeriodRecord :=
  [⟨"2024-01-01", "2024-01-01"⟩, ⟨"2024-01-21", "2024-01-21"⟩, ⟨"2024-02-25", "2024-02-25"⟩]

/-- History with starts `2024-01-01, 2024-01-29, 2024-02-26` (gaps 28 and 28). -/
def exRegular : List PeriodRecord :=
  [⟨"2024-01-01", "2024-01-01"⟩, ⟨"2024-01-29", "2024-01-29"⟩, ⟨"2024-02-26", "2024-02-26"⟩]

/-- History with the single record `{start: "2024-01-01"}`. -/
def exSingle : List PeriodRecord := [⟨"2024-01-01", "2024-01-01"⟩]

/-- Two valid records, in one order. -/
def exPermA : List PeriodRecord := [⟨"a", "2024-01-01"⟩, ⟨"b", "2024-01-29"⟩]

/-- The records of `exPermA` permuted, with a malformed record inserted. -/
def exPermB : List PeriodRecord :=
  [⟨"c", "2024-01-29"⟩, ⟨"x", "oops"⟩, ⟨"d", "2024-01-01"⟩]

/- ------------------------------------------------------------------ -/
/- Helper lemmas                                                      -/
/- ------------------------------------------------------------------ -/

theorem validDates_length_le (ph : List PeriodRecord) :
    (validDates ph).length ≤ ph.length :=
  List.length_filterMap_le _ _

/-- With at least two parsed dates, both insufficient-data guards of
`calculate_cycle_analysis` fail and the statistics branch is taken. -/
theorem calculate_cycle_analysis_of_two_valid (ph : List PeriodRecord)
    (h : 2 ≤ (validDates ph).length) :
    calculate_cycle_analysis ph = cycleStats (validDates ph) := by
  have h1 : ¬ ph.length < 2 := Nat.not_lt.mpr (le_trans h (validDates_length_le ph))
  have h2 : ¬ (validDates ph).length < 2 := Nat.not_lt.mpr h
  unfold calculate_cycle_analysis
  rw [if_neg h1]
  exact if_neg h2

/-- With at least one parsed date, both guards of
`calculate_period_calendar` fail and the projection loop runs. -/
theorem calculate_period_calendar_of_valid (ph : List PeriodRecord)
    (cl pd mo : Nat) (h : 1 ≤ (validDates ph).length) :
    calculate_period_calendar ph cl pd mo =
      (List.range mo).flatMap (fun i =>
        (List.range pd).map (fun day =>
          { date := formatDate ((validDates ph).getLastD 0 + cl * (i + 1) + day)
            month := dateMonth ((validDates ph).getLastD 0 + cl * (i + 1) + day)
            year := dateYear ((validDates ph).getLastD 0 + cl * (i + 1) + day)
            cycle_number := i + 1 })) := by
  have h1 : ¬ ph.length < 1 := Nat.not_lt.mpr (le_trans h (validDates_length_le ph))
  have h2 : ¬ (validDates ph).length < 1 := Nat.not_lt.mpr h
  unfold calculate_period_calendar
  rw [if_neg h1]
  exact if_neg h2

theorem length_flatMap_range_map {α : Type} (m p : Nat) (g : Nat → Nat → α) :
    ((List.range m).flatMap (fun i => (List.range p).map (g i))).length = m * p := by
  induction m with
  | zero => simp
  | succ n ih =>
    rw [List.range_succ, List.flatMap_append, List.length_append, ih]
    simp [Nat.succ_mul]

theorem getElem?_flatMap_range_map {α : Type} (m p : Nat) (g : Nat → Nat → α)
    (i day : Nat) (hi : i < m) (hd : day < p) :
    ((List.range m).flatMap (fun j => (List.range p).map (g j)))[i * p + day]? =
      some (g i day) := by
  induction m with
  | zero => omega
  | succ n ih =>
    rw [List.range_succ, List.flatMap_append]
    rcases Nat.lt_succ_iff_lt_or_eq.mp hi with h | h
    · rw [List.getElem?_append_left]
      · exact ih h
      · rw [length_flatMap_range_map]
        have h2 : (i + 1) * p ≤ n * p := Nat.mul_le_mul_right p h
        have h3 : i * p + day < (i + 1) * p := by rw [Nat.succ_mul]; omega
        omega
    · subst h
      rw [List.getElem?_append_right (by rw [length_flatMap_range_map]; omega)]
      rw [length_flatMap_range_map]
      have hsub : i * p + day - i * p = day := by omega
      rw [hsub]
      simp only [List.flatMap_cons, List.flatMap_nil, List.append_nil]
      rw [List.getElem?_map, List.getElem?_range hd]
      rfl

/-- If every element of `l` maps to `some`, the last element of
`l.filterMap f` is the image of the last element of `l`. -/
theorem getLast?_filterMap_of_isSome {α β : Type} (f : α → Option β) :
    ∀ l : List α, (∀ a ∈ l, (f a).isSome) →
      (l.filterMap f).getLast? = l.getLast?.bind f
  | [], _ => rfl
  | [x], hall => by
    rcases Option.isSome_iff_exists.mp (hall x (List.mem_singleton_self x)) with ⟨y, hy⟩
    simp [List.filterMap, hy]
  | x :: z :: zs, hall => by
    have hx : (f x).isSome := hall x (List.mem_cons_self x _)
    have hz : (f z).isSome := hall z (List.mem_cons_of_mem x (List.mem_cons_self z _))
    rcases Option.isSome_iff_exists.mp hx with ⟨y, hy⟩
    rcases Option.isSome_iff_exists.mp hz with ⟨w, hw⟩
    have ih := getLast?_filterMap_of_isSome f (z :: zs)
      (fun a ha => hall a (List.mem_cons_of_mem x ha))
    have hcons : (x :: z :: zs).filterMap f = y :: (z :: zs).filterMap f := by
      simp [List.filterMap_cons, hy]
    rw [hcons, List.getLast?_cons_cons]
    have hcons2 : (z :: zs).filterMap f = w :: zs.filterMap f := by
      simp [List.filterMap_cons, hw]
    rw [hcons2] at ih ⊢
    rw [show (y :: w :: zs.filterMap f).getLast? = (w :: zs.filterMap f).getLast? from
      List.getLast?_cons_cons]
    exact ih

/-- The regularity if-chain of `calculate_cycle_analysis`, characterised
by the variance intervals of the four categories. -/
theorem regularity_chain_iff (v : Nat) :
    ((if v ≤ 3 then "Very Regular"
      else if v ≤ 7 then "Regular"
      else if v ≤ 10 then "Slightly Irregular"
      else ("Irregular" : String)) = "Very Regular" ↔ v ≤ 3) ∧
    ((if v ≤ 3 then "Very Regular"
      else if v ≤ 7 then "Regular"
      else if v ≤ 10 then "Slightly Irregular"
      else ("Irregular" : String)) = "Regular" ↔ 3 < v ∧ v ≤ 7) ∧
    ((if v ≤ 3 then "Very Regular"
      else if v ≤ 7 then "Regular"
      else if v ≤ 10 then "Slightly Irregular"
      else ("Irregular" : String)) = "Slightly Irregular" ↔ 7 < v ∧ v ≤ 10) ∧
    ((if v ≤ 3 then "Very Regular"
      else if v ≤ 7 then "Regular"
      else if v ≤ 10 then "Slightly Irregular"
      else ("Irregular" : String)) = "Irregular" ↔ 10 < v) := by
  split_ifs with h3 h7 h10 <;>
    refine ⟨?_, ?_, ?_, ?_⟩ <;>
    constructor <;>
    intro hx <;>
    first
    | rfl
    | omega
    | exact absurd hx (by decide)

/- ------------------------------------------------------------------ -/
/- Claims                                                             -/
/- ------------------------------------------------------------------ -/

/-- Claim C1: with at least 2 valid parsed start dates,
`calculate_cycle_analysis` returns `cycle_length` equal to the floor of
the average of the consecutive day-gaps between the sorted valid dates. -/
theorem claim1_cycle_length_floor_avg (ph : List PeriodRecord)
    (h : 2 ≤ (validDates ph).length) :
    (calculate_cycle_analysis ph).cycle_length =
      (cycleGaps ph).sum / (cycleGaps ph).length := by
  rw [calculate_cycle_analysis_of_two_valid ph h]
  rfl

theorem claim1_cycle_length_floor_avg_witness :
    2 ≤ (validDates exGaps2035).length ∧
    (calculate_cycle_analysis exGaps2035).cycle_length =
      (cycleGaps exGaps2035).sum / (cycleGaps exGaps2035).length ∧
    (calculate_cycle_analysis exGaps2035).cycle_length = 27 :=
  ⟨by decide, claim1_cycle_length_floor_avg exGaps2035 (by decide), by decide⟩

/-- Claim C2: with fewer than 2 valid parsed start dates,
`calculate_cycle_analysis` returns the insufficient-data result, whose
`last_period_start` is the `start` of the first raw record when the raw
history is non-empty and `"No data"` when it is empty. -/
theorem claim2_insufficient_data (ph : List PeriodRecord)
    (h : (validDates ph).length < 2) :
    calculate_cycle_analysis ph =
      { cycle_length := 28
        period_duration := 5
        cycle_regularity := "Insufficient data"
        next_ovulation := "Need more data"
        fertile_window := "Need more data"
        last_period_start :=
          match ph with
          | [] => "No data"
          | p :: _ => p.start } := by
  have hins : calculate_cycle_analysis ph = insufficientAnalysis ph := by
    unfold calculate_cycle_analysis
    rcases Nat.lt_or_ge ph.length 2 with h1 | h1
    · rw [if_pos h1]
    · rw [if_neg (Nat.not_lt.mpr h1)]
      exact if_pos h
  rw [hins]
  cases ph <;> rfl

theorem claim2_insufficient_data_witness :
    calculate_cycle_analysis exSingle =
      { cycle_length := 28
        period_duration := 5
        cycle_regularity := "Insufficient data"
        next_ovulation := "Need more data"
        fertile_window := "Need more data"
        last_period_start := "2024-01-01" } ∧
    calculate_cycle_analysis [] =
      { cycle_length := 28
        period_duration := 5
        cycle_regularity := "Insufficient data"
        next_ovulation := "Need more data"
        fertile_window := "Need more data"
        last_period_start := "No data" } :=
  And.intro (by rw [claim2_insufficient_data exSingle (by decide)]; decide)
    (by rw [claim2_insufficient_data [] (by decide)])

/-- Claim C3 (as stated, refuted): `predict_next_period` parses the last
record's `start` with no `try`/`except`, so a history ending in a
malformed `start` raises `ValueError` (modelled as `none`) instead of
degrading to a sentinel. -/
theorem claim3_counterexample :
    predict_next_period [⟨"2024-01-01", "garbage"⟩] 28 = none := by decide

/-- Claim C3 (amended): `calculate_cycle_analysis`,
`calculate_period_calendar` and `get_period_delay` are total (modelled
as plain functions), but `predict_next_period` propagates an error
exactly when the history is non-empty and its last record's `start`
fails to parse. -/
theorem claim3_error_iff_last_unparseable (ph : List PeriodRecord) (cl : Nat) :
    predict_next_period ph cl = none ↔
      ph ≠ [] ∧ strptimeDate (ph.getLastD ⟨"", ""⟩).start = none := by
  cases ph with
  | nil => simp [predict_next_period]
  | cons x xs =>
    unfold predict_next_period
    rw [if_neg (by simp)]
    rcases hs : strptimeDate ((x :: xs).getLastD ⟨"", ""⟩).start with _ | d <;>
      simp [hs]

/-- Claim C4 (as stated, refuted): `predict_next_period` does not return
a formatted date for every non-empty history — a history whose last
record's `start` is malformed raises instead. -/
theorem claim4_counterexample :
    predict_next_period [⟨"d", "2024-13-05"⟩] 31 = none := by decide

/-- Claim C4 (amended): the empty history yields the sentinel
`"Need more data for prediction"`, and whenever the last element of the
history (in caller-supplied order, not re-sorted) has a parseable
`start`, the result is that date plus `cycle_length` days, formatted. -/
theorem claim4_predict_from_last (ph : List PeriodRecord) (cl d : Nat)
    (h : strptimeDate (ph.getLastD ⟨"", ""⟩).start = some d) :
    predict_next_period ph cl = some (formatDate (d + cl)) ∧
    ∀ cl2 : Nat, predict_next_period [] cl2 = some "Need more data for prediction" := by
  constructor
  · cases ph with
    | nil =>
      rw [show strptimeDate (([] : List PeriodRecord).getLastD ⟨"", ""⟩).start = none
        from rfl] at h
      exact Option.noConfusion h
    | cons x xs =>
      unfold predict_next_period
      rw [if_neg (by simp), h]
  · intro cl2
    rfl

theorem claim4_predict_from_last_witness :
    predict_next_period exSingle 28 = some (formatDate (daysFromCivil 2024 1 1 + 28)) ∧
    formatDate (daysFromCivil 2024 1 1 + 28) = "2024-01-29" :=
  ⟨(claim4_predict_from_last exSingle 28 (daysFromCivil 2024 1 1) (by decide)).1,
    by decide⟩

/-- Claim C9: `calculate_cycle_analysis` depends only on the multiset of
valid parsed start dates — permuting records and adding or removing
malformed records changes nothing, given at least 2 valid dates. -/
theorem claim9_perm_invariant (ph1 ph2 : List PeriodRecord)
    (hp : List.Perm (validDates ph1) (validDates ph2))
    (h : 2 ≤ (validDates ph1).length) :
    calculate_cycle_analysis ph1 = calculate_cycle_analysis ph2 := by
  have h2 : 2 ≤ (validDates ph2).length := hp.length_eq ▸ h
  rw [calculate_cycle_analysis_of_two_valid ph1 h,
    calculate_cycle_analysis_of_two_valid ph2 h2]
  have hs : List.insertionSort (· ≤ ·) (validDates ph1) =
      List.insertionSort (· ≤ ·) (validDates ph2) := by
    exact @List.eq_of_perm_of_sorted Nat (· ≤ ·) ⟨fun a b h1 h2 => Nat.le_antisymm h1 h2⟩
      _ _
      (((List.perm_insertionSort _ _).trans hp).trans
        (List.perm_insertionSort _ _).symm)
      (List.sorted_insertionSort _ _) (List.sorted_insertionSort _ _)
  simp only [cycleStats, hs]

theorem claim9_perm_invariant_witness :
    calculate_cycle_analysis exPermA = calculate_cycle_analysis exPermB :=
  claim9_perm_invariant exPermA exPermB (by decide) (by decide)

/-- Claim C6: with at least 2 valid parsed start dates, the ovulation,
fertile-window and last-period fields are derived from the latest sorted
date: ovulation is that date plus `cycle_length` minus 14 days, the
fertile window runs from ovulation minus 3 days to ovulation plus 1 day,
and `last_period_start` is the latest sorted date, all `YYYY-MM-DD`. -/
theorem claim6_prediction_fields (ph : List PeriodRecord)
    (h : 2 ≤ (validDates ph).length) :
    (calculate_cycle_analysis ph).next_ovulation =
      formatDate ((sortedValidDates ph).getLastD 0 +
        (calculate_cycle_analysis ph).cycle_length - 14) ∧
    (calculate_cycle_analysis ph).fertile_window =
      formatDate ((sortedValidDates ph).getLastD 0 +
        (calculate_cycle_analysis ph).cycle_length - 14 - 3) ++ " to " ++
      formatDate ((sortedValidDates ph).getLastD 0 +
        (calculate_cycle_analysis ph).cycle_length - 14 + 1) ∧
    (calculate_cycle_analysis ph).last_period_start =
      formatDate ((sortedValidDates ph).getLastD 0) := by
  rw [calculate_cycle_analysis_of_two_valid ph h]
  exact ⟨rfl, rfl, rfl⟩

theorem claim6_prediction_fields_witness :
    ((calculate_cycle_analysis exRegular).next_ovulation =
      formatDate ((sortedValidDates exRegular).getLastD 0 +
        (calculate_cycle_analysis exRegular).cycle_length - 14) ∧
    (calculate_cycle_analysis exRegular).fertile_window =
      formatDate ((sortedValidDates exRegular).getLastD 0 +
        (calculate_cycle_analysis exRegular).cycle_length - 14 - 3) ++ " to " ++
      formatDate ((sortedValidDates exRegular).getLastD 0 +
        (calculate_cycle_analysis exRegular).cycle_length - 14 + 1) ∧
    (calculate_cycle_analysis exRegular).last_period_start =
      formatDate ((sortedValidDates exRegular).getLastD 0)) ∧
    (calculate_cycle_analysis exRegular).next_ovulation = "2024-03-11" ∧
    (calculate_cycle_analysis exRegular).fertile_window =
      "2024-03-08 to 2024-03-12" ∧
    (calculate_cycle_analysis exRegular).last_period_start = "2024-02-26" :=
  ⟨claim6_prediction_fields exRegular (by decide), by decide, by decide, by decide⟩

/-- Claim C7: with at least 2 valid parsed start dates,
`cycle_regularity` is classified from the gap spread
`max(gaps) - min(gaps)`: at most 3 is "Very Regular", 4..7 "Regular",
8..10 "Slightly Irregular", above 10 "Irregular". -/
theorem claim7_regularity_classification (ph : List PeriodRecord)
    (h : 2 ≤ (validDates ph).length) :
    ((calculate_cycle_analysis ph).cycle_regularity = "Very Regular" ↔
      listMax (cycleGaps ph) - listMin (cycleGaps ph) ≤ 3) ∧
    ((calculate_cycle_analysis ph).cycle_regularity = "Regular" ↔
      3 < listMax (cycleGaps ph) - listMin (cycleGaps ph) ∧
      listMax (cycleGaps ph) - listMin (cycleGaps ph) ≤ 7) ∧
    ((calculate_cycle_analysis ph).cycle_regularity = "Slightly Irregular" ↔
      7 < listMax (cycleGaps ph) - listMin (cycleGaps ph) ∧
      listMax (cycleGaps ph) - listMin (cycleGaps ph) ≤ 10) ∧
    ((calculate_cycle_analysis ph).cycle_regularity = "Irregular" ↔
      10 < listMax (cycleGaps ph) - listMin (cycleGaps ph)) := by
  rw [calculate_cycle_analysis_of_two_valid ph h]
  exact regularity_chain_iff (listMax (cycleGaps ph) - listMin (cycleGaps ph))

theorem claim7_regularity_classification_witness :
    (((calculate_cycle_analysis exGaps2035).cycle_regularity = "Very Regular" ↔
      listMax (cycleGaps exGaps2035) - listMin (cycleGaps exGaps2035) ≤ 3) ∧
    ((calculate_cycle_analysis exGaps2035).cycle_regularity = "Regular" ↔
      3 < listMax (cycleGaps exGaps2035) - listMin (cycleGaps exGaps2035) ∧
      listMax (cycleGaps exGaps2035) - listMin (cycleGaps exGaps2035) ≤ 7) ∧
    ((calculate_cycle_analysis exGaps2035).cycle_regularity = "Slightly Irregular" ↔
      7 < listMax (cycleGaps exGaps2035) - listMin (cycleGaps exGaps2035) ∧
      listMax (cycleGaps exGaps2035) - listMin (cycleGaps exGaps2035) ≤ 10) ∧
    ((calculate_cycle_analysis exGaps2035).cycle_regularity = "Irregular" ↔
      10 < listMax (cycleGaps exGaps2035) - listMin (cycleGaps exGaps2035))) ∧
    (calculate_cycle_analysis exGaps2035).cycle_regularity = "Irregular" ∧
    listMax (cycleGaps exGaps2035) - listMin (cycleGaps exGaps2035) = 15 :=
  ⟨claim7_regularity_classification exGaps2035 (by decide), by decide, by decide⟩

/-- Claim C5: with at least one parseable start, the calendar has
exactly `months * period_duration` entries and the entry at position
`i * period_duration + day` (cycle `i`, offset `day`) is the reference
date (last parsed date) plus `cycle_length * (i+1) + day`, with its
month, year and 1-based cycle number; empty or fully-unparseable
histories give the empty list. -/
theorem claim5_calendar_projection (ph : List PeriodRecord) (cl pd mo : Nat) :
    ((ph = [] ∨ (validDates ph).length = 0) →
      calculate_period_calendar ph cl pd mo = []) ∧
    (1 ≤ (validDates ph).length →
      (calculate_period_calendar ph cl pd mo).length = mo * pd ∧
      ∀ i day : Nat, i < mo → day < pd →
        (calculate_period_calendar ph cl pd mo)[i * pd + day]? =
          some { date := formatDate ((validDates ph).getLastD 0 + cl * (i + 1) + day)
                 month := dateMonth ((validDates ph).getLastD 0 + cl * (i + 1) + day)
                 year := dateYear ((validDates ph).getLastD 0 + cl * (i + 1) + day)
                 cycle_number := i + 1 }) := by
  constructor
  · intro hempty
    unfold calculate_period_calendar
    rcases Nat.lt_or_ge ph.length 1 with h1 | h1
    · rw [if_pos h1]
    · rw [if_neg (Nat.not_lt.mpr h1)]
      rcases hempty with rfl | hz
      · simp at h1
      · exact if_pos (by omega)
  · intro h
    rw [calculate_period_calendar_of_valid ph cl pd mo h]
    refine ⟨length_flatMap_range_map mo pd _, ?_⟩
    intro i day hi hd
    exact getElem?_flatMap_range_map mo pd _ i day hi hd

theorem claim5_calendar_projection_witness :
    (calculate_period_calendar exSingle 30 3 2).length = 2 * 3 ∧
    (calculate_period_calendar exSingle 30 3 2)[1 * 3 + 2]? =
      some { date := formatDate ((validDates exSingle).getLastD 0 + 30 * (1 + 1) + 2)
             month := dateMonth ((validDates exSingle).getLastD 0 + 30 * (1 + 1) + 2)
             year := dateYear ((validDates exSingle).getLastD 0 + 30 * (1 + 1) + 2)
             cycle_number := 1 + 1 } ∧
    formatDate ((validDates exSingle).getLastD 0 + 30 * (1 + 1) + 2) = "2024-03-03" :=
  ⟨((claim5_calendar_projection exSingle 30 3 2).2 (by decide)).1,
   ((claim5_calendar_projection exSingle 30 3 2).2 (by decide)).2 1 2
     (by decide) (by decide),
   by decide⟩

/-- Claim C8 (as stated, refuted): on the predicted date itself, once the
clock is past midnight, `get_period_delay` returns `0` rather than the
`null` the claim requires for a current date on or before the predicted
date (`datetime.now()` carries a time of day; the predicted date is
midnight). -/
theorem claim8_counterexample :
    get_period_delay "2024-01-01" (daysFromCivil 2024 1 1) 3600 = some 0 := by decide

/-- Claim C8 (amended): sentinel, empty or unparseable input gives
`None`; with a parsed date `p` the result is the whole-day difference
`today - p` whenever the current datetime is past `p`'s midnight (so `0`
on the predicted day itself once past midnight, positive on later days),
and `None` when the current datetime is at or before `p`'s midnight. -/
theorem claim8_delay_characterisation (s : String) (todayDay todaySec : Nat) :
    (strptimeDate s = none → get_period_delay s todayDay todaySec = none) ∧
    (∀ p : Nat, strptimeDate s = some p →
      (p < todayDay →
        get_period_delay s todayDay todaySec = some (todayDay - p) ∧
        0 < todayDay - p) ∧
      (p = todayDay → 0 < todaySec →
        get_period_delay s todayDay todaySec = some 0) ∧
      (todayDay < p ∨ (todayDay = p ∧ todaySec = 0) →
        get_period_delay s todayDay todaySec = none)) := by
  constructor
  · intro h0
    unfold get_period_delay
    split_ifs with hg
    · rfl
    · rw [h0]
  · intro p hp
    have hne : ¬(s = "" ∨ s = "Need more data for prediction") := by
      rintro (rfl | rfl)
      · rw [show strptimeDate "" = none from rfl] at hp
        exact Option.noConfusion hp
      · rw [show strptimeDate "Need more data for prediction" = none from rfl] at hp
        exact Option.noConfusion hp
    have hcore : get_period_delay s todayDay todaySec =
        if p < todayDay ∨ (p = todayDay ∧ 0 < todaySec) then some (todayDay - p)
        else none := by
      unfold get_period_delay
      rw [if_neg hne, hp]
    refine ⟨?_, ?_, ?_⟩
    · intro hlt
      rw [hcore, if_pos (Or.inl hlt)]
      exact ⟨rfl, by omega⟩
    · intro heq hsec
      rw [hcore, if_pos (Or.inr ⟨heq, hsec⟩), heq, Nat.sub_self]
    · intro hge
      rcases hge with h1 | ⟨h1, h2⟩ <;> rw [hcore, if_neg (by omega)]

theorem claim8_delay_characterisation_witness :
    get_period_delay "2024-01-01" (daysFromCivil 2024 1 10) 0 =
      some (daysFromCivil 2024 1 10 - daysFromCivil 2024 1 1) ∧
    0 < daysFromCivil 2024 1 10 - daysFromCivil 2024 1 1 ∧
    daysFromCivil 2024 1 10 - daysFromCivil 2024 1 1 = 9 :=
  ⟨(((claim8_delay_characterisation "2024-01-01" (daysFromCivil 2024 1 10) 0).2
      (daysFromCivil 2024 1 1) (by decide)).1 (by decide)).1,
   (((claim8_delay_characterisation "2024-01-01" (daysFromCivil 2024 1 10) 0).2
      (daysFromCivil 2024 1 1) (by decide)).1 (by decide)).2,
   by decide⟩

/-- Claim C10: for a non-empty history whose every `start` parses, the
first calendar entry's date equals the prediction of
`predict_next_period` with the same cycle length — both add
`cycle_length` days once to the same last-element reference. -/
theorem claim10_first_entry_eq_prediction (ph : List PeriodRecord)
    (cl pd mo : Nat) (hne : ph ≠ [])
    (hall : ∀ r ∈ ph, (strptimeDate r.start).isSome)
    (hpd : 1 ≤ pd) (hmo : 1 ≤ mo) :
    (calculate_period_calendar ph cl pd mo).head?.map CalendarEntry.date =
      predict_next_period ph cl := by
  rcases Option.isSome_iff_exists.mp (List.getLast?_isSome.mpr hne) with ⟨r, hr⟩
  rcases Option.isSome_iff_exists.mp
    (hall r (List.mem_of_getLast?_eq_some hr)) with ⟨d, hd⟩
  have hvl : (validDates ph).getLast? = some d := by
    rw [validDates, getLast?_filterMap_of_isSome _ ph hall, hr]
    exact hd
  have hvd : 1 ≤ (validDates ph).length :=
    List.length_pos.mpr (fun hnil => by
      rw [hnil] at hvl; exact Option.noConfusion hvl)
  have hlastD : (validDates ph).getLastD 0 = d := by
    rw [List.getLastD_eq_getLast?, hvl]
    rfl
  have hpredict : predict_next_period ph cl = some (formatDate (d + cl)) := by
    unfold predict_next_period
    rw [if_neg (Nat.not_lt.mpr (List.length_pos.mpr hne))]
    rw [show ph.getLastD ⟨"", ""⟩ = r from by
      rw [List.getLastD_eq_getLast?, hr]
      rfl]
    rw [hd]
  rw [calculate_period_calendar_of_valid ph cl pd mo hvd, hpredict,
    List.head?_eq_getElem?]
  have hidx := getElem?_flatMap_range_map mo pd
    (fun i day =>
      ({ date := formatDate ((validDates ph).getLastD 0 + cl * (i + 1) + day)
         month := dateMonth ((validDates ph).getLastD 0 + cl * (i + 1) + day)
         year := dateYear ((validDates ph).getLastD 0 + cl * (i + 1) + day)
         cycle_number := i + 1 } : CalendarEntry)) 0 0 (by omega) (by omega)
  rw [show 0 * pd + 0 = 0 from by omega] at hidx
  rw [hidx]
  simp [hvl]

theorem claim10_first_entry_eq_prediction_witness :
    (calculate_period_calendar exSingle 28 5 6).head?.map CalendarEntry.date =
      predict_next_period exSingle 28 ∧
    predict_next_period exSingle 28 = some "2024-01-29" :=
  ⟨claim10_first_entry_eq_prediction exSingle 28 5 6 (by decide) (by decide)
     (by decide) (by decide), by decide⟩
